import Mathlib

/-
Verification of the rerun URDF loader example programs.

The repository's C++ program (src/main.cpp) is a straight-line sequence of
calls into the rerun SDK: construct a `RecordingStream`, spawn a viewer
(exiting on failure), and then three rounds of (set_time_seconds,
set_time_sequence, log_file_from_path).  We embed the program shallowly as a
function from its environment (process arguments, environment variables, and
the success/failure outcomes of the external calls) to the list of
external-library calls it issues together with its exit status.

Floating-point seconds values are modelled as rationals: the only values the
program ever passes are the literals 1.0, 2.0 and 5.0, all exactly
representable, and the program performs no floating-point arithmetic on them.
-/

namespace Urdf

/-- One call into the external rerun library, with its arguments.
Mirrors the five SDK entry points used by the repository:
`RecordingStream(app_id)`, `spawn()`, `set_time_seconds(timeline, seconds)`,
`set_time_sequence(timeline, sequence)` and
`log_file_from_path(filepath, entity_path)`. -/
inductive ApiCall
  | recordingStream (appId : String)
  | spawn
  | setTimeSeconds (timeline : String) (seconds : ℚ)
  | setTimeSequence (timeline : String) (sequence : Int)
  | logFileFromPath (filepath : String) (entityPath : String)
  deriving DecidableEq

/-- Shallow embedding of `main` in src/main.cpp (the Variant B program).

`args` and `env` model the process's command-line arguments and environment
variables; `main()` takes no parameters and reads no environment, so they are
never consulted.  `spawnOk` models whether `rec.spawn()` succeeds:
`.exit_on_failure()` terminates the process with exit status 1
(`EXIT_FAILURE`) when it fails.  `fileOk` and `transportOk` model the other
failure modes (missing/malformed file, transport failure); the source never
inspects them, so they do not occur in the body.

Returns the list of external calls issued, in order, and the exit status. -/
def mainB (args : List String) (env : List (String × String))
    (spawnOk fileOk transportOk : Bool) : List ApiCall × Nat :=
  let pre : List ApiCall := [.recordingStream "urdf_from_cpp", .spawn]
  if spawnOk then
    (pre ++
      [.setTimeSeconds "testtime" 1, .setTimeSequence "seq" 1,
       .logFileFromPath "./example.urdf" "my_urdf/urdf",
       .setTimeSeconds "testtime" 2, .setTimeSequence "seq" 2,
       .logFileFromPath "./example.urdf" "my_urdf/urdf",
       .setTimeSeconds "testtime" 5, .setTimeSequence "seq" 5,
       .logFileFromPath "./example.urdf" "my_urdf/urdf"], 0)
  else
    (pre, 1)

/-- The floating-point time-marker values set by a trace, in order. -/
def timeMarkerValues (t : List ApiCall) : List ℚ :=
  t.filterMap fun c =>
    match c with
    | .setTimeSeconds _ v => some v
    | _ => none

/-- The integer sequence-marker values set by a trace, in order. -/
def seqMarkerValues (t : List ApiCall) : List Int :=
  t.filterMap fun c =>
    match c with
    | .setTimeSequence _ n => some n
    | _ => none

/-- The (filepath, entity path) argument pairs of the log-file-from-path
calls of a trace, in order. -/
def logCalls (t : List ApiCall) : List (String × String) :=
  t.filterMap fun c =>
    match c with
    | .logFileFromPath p e => some (p, e)
    | _ => none

/-- The shape of an external call, forgetting its arguments. -/
inductive CallKind
  | session
  | spawnCall
  | timeSet
  | seqSet
  | logCall
  deriving DecidableEq

/-- The kind of one external call. -/
def kindOf : ApiCall → CallKind
  | .recordingStream _ => .session
  | .spawn => .spawnCall
  | .setTimeSeconds _ _ => .timeSet
  | .setTimeSequence _ _ => .seqSet
  | .logFileFromPath _ _ => .logCall

/-- Modelled from the spec: the repository's Variant A program, whose source
file is not under src/ (only the C++ Variant B is).  Per the spec
(sections 2, 4.1 and 8) Variant A creates a session, spawns a viewer, sets a
floating-point time marker (to 1.0, later advanced to 2.0), and logs a fixed
file path under a fixed entity path twice, advancing the time marker once in
between, then returns success.  The spec does not fix Variant A's session
name, timeline name or paths, so they are parameters. -/
def mainA (appId timeline filepath entityPath : String) (spawnOk : Bool) :
    List ApiCall × Nat :=
  let pre : List ApiCall := [.recordingStream appId, .spawn]
  if spawnOk then
    (pre ++
      [.setTimeSeconds timeline 1,
       .logFileFromPath filepath entityPath,
       .setTimeSeconds timeline 2,
       .logFileFromPath filepath entityPath], 0)
  else
    (pre, 1)

/-- A file system: contents (if any) at each path. -/
def FileSys : Type := String → Option String

/-- Effect of one external call on the file system.  None of the five SDK
calls the program issues writes to any file: session construction, viewer
spawning and the two marker setters touch no file, and
`log_file_from_path` only reads the file at its path. -/
def applyCall (fs : FileSys) : ApiCall → FileSys
  | .recordingStream _ => fs
  | .spawn => fs
  | .setTimeSeconds _ _ => fs
  | .setTimeSequence _ _ => fs
  | .logFileFromPath _ _ => fs

/-- File paths a call reads: `log_file_from_path` reads the file at its
path argument; no other call touches a file. -/
def readsOf : ApiCall → List String
  | .logFileFromPath p _ => [p]
  | _ => []

/-- Effect of a whole trace on the file system. -/
def runFs (t : List ApiCall) (fs : FileSys) : FileSys :=
  t.foldl applyCall fs

/-- Ambient timeline state of a recording stream: the most recently set
time marker and sequence marker, if any. -/
structure TimeState where
  time : Option ℚ
  seq : Option Int
  deriving DecidableEq

/-- One call's effect on the ambient timeline state. -/
def stepState (s : TimeState) : ApiCall → TimeState
  | .setTimeSeconds _ v => { s with time := some v }
  | .setTimeSequence _ n => { s with seq := some n }
  | _ => s

/-- The ambient timeline state in force at each log call of a trace,
in order. -/
def markersAtLogs (s : TimeState) : List ApiCall → List (Option ℚ × Option Int)
  | [] => []
  | c :: rest =>
    let s' := stepState s c
    match c with
    | .logFileFromPath _ _ => (s'.time, s'.seq) :: markersAtLogs s' rest
    | _ => markersAtLogs s' rest

end Urdf

namespace Urdf

/-- C1: in the Variant B program's successful run, the floating-point time
marker takes exactly the values 1.0, 2.0, 5.0 and the integer sequence marker
exactly the values 1, 2, 5, in that order, with no other marker-setting
calls. -/
theorem mainB_marker_values (args : List String) (env : List (String × String))
    (fileOk transportOk : Bool) :
    timeMarkerValues (mainB args env true fileOk transportOk).1 = [1, 2, 5] ∧
    seqMarkerValues (mainB args env true fileOk transportOk).1 = [1, 2, 5] :=
  ⟨rfl, rfl⟩

/-- C2: the Variant B program invokes log-file-from-path exactly 3 times,
every time with the same fixed file path and entity path. -/
theorem mainB_log_calls (args : List String) (env : List (String × String))
    (fileOk transportOk : Bool) :
    logCalls (mainB args env true fileOk transportOk).1 =
      List.replicate 3 ("./example.urdf", "my_urdf/urdf") :=
  rfl

/-- C3: when viewer spawning fails, the Variant B program performs no
log-file-from-path calls and exits with a non-zero status. -/
theorem mainB_spawn_failure (args : List String) (env : List (String × String))
    (fileOk transportOk : Bool) :
    (logCalls (mainB args env false fileOk transportOk).1).length = 0 ∧
    (mainB args env false fileOk transportOk).2 ≠ 0 :=
  ⟨rfl, by simp [mainB]⟩

/-- C4: on every execution in which the referenced file exists and viewer
spawning succeeds, the Variant B program runs to completion and exits with
status 0. -/
theorem mainB_success_exit_zero (args : List String) (env : List (String × String))
    (spawnOk fileOk transportOk : Bool) (hs : spawnOk = true) (hf : fileOk = true) :
    (mainB args env spawnOk fileOk transportOk).2 = 0 := by
  subst hs
  rfl

/-- Witness for C4: the hypotheses hold at a concrete input and the
conclusion follows by the theorem. -/
theorem mainB_success_exit_zero_witness :
    (true = true ∧ true = true) ∧ (mainB [] [] true true true).2 = 0 :=
  ⟨⟨rfl, rfl⟩, mainB_success_exit_zero [] [] true true true rfl rfl⟩

/-- C5: on a successful run of the Variant B program the external calls
occur in exactly this order: session creation, then viewer spawn, then three
groups each consisting of a time-marker set, a sequence-marker set and a log
call; both marker sequences are strictly increasing (so both markers advance
between consecutive log calls), no log call precedes the first
marker-setting pair, and no marker is set after the last log call. -/
theorem mainB_call_order (args : List String) (env : List (String × String))
    (fileOk transportOk : Bool) :
    (mainB args env true fileOk transportOk).1.map kindOf =
      [.session, .spawnCall,
       .timeSet, .seqSet, .logCall,
       .timeSet, .seqSet, .logCall,
       .timeSet, .seqSet, .logCall] ∧
    List.Chain' (· < ·) (timeMarkerValues (mainB args env true fileOk transportOk).1) ∧
    List.Chain' (· < ·) (seqMarkerValues (mainB args env true fileOk transportOk).1) :=
  ⟨rfl, (by norm_num [List.chain'_cons, List.chain'_singleton] : List.Chain' (· < ·) [(1 : ℚ), 2, 5]),
    (by norm_num [List.chain'_cons, List.chain'_singleton] : List.Chain' (· < ·) [(1 : ℤ), 2, 5])⟩

/-- C6: the repository contains a Variant A program that creates a session,
spawns a viewer, sets only a floating-point time marker (1.0 then 2.0), and
logs the file exactly twice with the same fixed path and entity path,
advancing the time marker once between the two log calls. -/
theorem mainA_behaviour (appId timeline filepath entityPath : String) :
    (mainA appId timeline filepath entityPath true).1.map kindOf =
      [.session, .spawnCall, .timeSet, .logCall, .timeSet, .logCall] ∧
    timeMarkerValues (mainA appId timeline filepath entityPath true).1 = [1, 2] ∧
    seqMarkerValues (mainA appId timeline filepath entityPath true).1 = [] ∧
    logCalls (mainA appId timeline filepath entityPath true).1 =
      List.replicate 2 (filepath, entityPath) ∧
    List.Chain' (· < ·) (timeMarkerValues (mainA appId timeline filepath entityPath true).1) ∧
    (mainA appId timeline filepath entityPath true).2 = 0 :=
  ⟨rfl, rfl, rfl, rfl, (by norm_num [List.chain'_cons, List.chain'_singleton] : List.Chain' (· < ·) [(1 : ℚ), 2]), rfl⟩

/-- C7: viewer-spawn failure is the only failure the program branches on:
its issued calls and exit status are unchanged under any change of the
file-existence and transport outcomes, while the spawn outcome does change
its behaviour. -/
theorem mainB_only_spawn_branch (args : List String) (env : List (String × String))
    (spawnOk fileOk transportOk fileOk' transportOk' : Bool) :
    mainB args env spawnOk fileOk transportOk =
      mainB args env spawnOk fileOk' transportOk' ∧
    (mainB args env true fileOk transportOk).2 ≠
      (mainB args env false fileOk transportOk).2 := by
  refine ⟨?_, ?_⟩
  · cases spawnOk <;> rfl
  · simp [mainB]

/-- C8: the program's behaviour is deterministic and independent of
command-line arguments and environment variables: any two runs with the same
external outcomes issue the identical sequence of external calls and return
the same exit status, whatever the arguments and environment. -/
theorem mainB_ignores_args_env (args args' : List String)
    (env env' : List (String × String)) (spawnOk fileOk transportOk : Bool) :
    mainB args env spawnOk fileOk transportOk =
      mainB args' env' spawnOk fileOk transportOk := by
  cases spawnOk <;> rfl

/-- C9: the program never mutates the referenced file: running its whole
trace over any file system leaves the file system unchanged, and the logged
file path reaches the external library only through the read-only
log-file-from-path call. -/
theorem mainB_frame (args : List String) (env : List (String × String))
    (spawnOk fileOk transportOk : Bool) (fs : FileSys) :
    runFs (mainB args env spawnOk fileOk transportOk).1 fs = fs ∧
    ∀ c ∈ (mainB args env spawnOk fileOk transportOk).1,
      "./example.urdf" ∈ readsOf c →
        c = .logFileFromPath "./example.urdf" "my_urdf/urdf" := by
  constructor
  · cases spawnOk <;> rfl
  · cases spawnOk <;> · intro c hc; fin_cases hc <;> simp [readsOf]

/-- C10: at every log call of the Variant B program the most recently set
sequence marker equals the integer value of the most recently set time
marker ((1.0,1), (2.0,2), (5.0,5)), both markers having been set; both
marker sequences are strictly increasing; and the constants are fixed as
session name "urdf_from_cpp", file path "./example.urdf" and entity path
"my_urdf/urdf". -/
theorem mainB_marker_invariant (args : List String) (env : List (String × String))
    (fileOk transportOk : Bool) :
    markersAtLogs ⟨none, none⟩ (mainB args env true fileOk transportOk).1 =
      [(some 1, some 1), (some 2, some 2), (some 5, some 5)] ∧
    (∀ p ∈ markersAtLogs ⟨none, none⟩ (mainB args env true fileOk transportOk).1,
      ∃ q n, p = (some q, some n) ∧ q = (n : ℚ)) ∧
    List.Chain' (· < ·) (timeMarkerValues (mainB args env true fileOk transportOk).1) ∧
    List.Chain' (· < ·) (seqMarkerValues (mainB args env true fileOk transportOk).1) ∧
    (mainB args env true fileOk transportOk).1.head? =
      some (.recordingStream "urdf_from_cpp") ∧
    logCalls (mainB args env true fileOk transportOk).1 =
      List.replicate 3 ("./example.urdf", "my_urdf/urdf") := by
  refine ⟨rfl, ?_, (by norm_num [List.chain'_cons, List.chain'_singleton] : List.Chain' (· < ·) [(1 : ℚ), 2, 5]),
    (by norm_num [List.chain'_cons, List.chain'_singleton] : List.Chain' (· < ·) [(1 : ℤ), 2, 5]), rfl, rfl⟩
  intro p hp
  fin_cases hp
  · exact ⟨1, 1, rfl, by norm_num⟩
  · exact ⟨2, 2, rfl, by norm_num⟩
  · exact ⟨5, 5, rfl, by norm_num⟩

end Urdf
